import Mathlib

/- Shallow embedding of the transaction authorization and double-entry ledger
   engine described by the repository's virtual-card specification document,
   together with the rate-limiting middleware of the homework-1 banking API
   (src/homework-1, rateLimiter). -/

set_option maxRecDepth 4096

/-- Card lifecycle states (spec §4.1). -/
inductive CardStatus
  | PENDING
  | ACTIVE
  | FROZEN
  | CLOSED
deriving DecidableEq, Repr, Fintype

/-- Transaction kinds (spec §3). -/
inductive TransactionType
  | AUTHORIZATION
  | REFUND
deriving DecidableEq, Repr, Fintype

/-- Transaction lifecycle states (spec §3). -/
inductive TransactionStatus
  | AUTHORIZED
  | SETTLED
  | REFUNDED
  | DECLINED
  | REVERSED
deriving DecidableEq, Repr, Fintype

/-- Ledger entry direction (spec §3). -/
inductive EntryType
  | DEBIT
  | CREDIT
deriving DecidableEq, Repr, Fintype

/-- Failure value carried by an illegal card state transition (spec §4.1:
fails with InvalidStateTransition(current, requested)). -/
structure InvalidStateTransition where
  current : CardStatus
  requested : CardStatus
deriving DecidableEq, Repr

instance : DecidableEq (Except InvalidStateTransition CardStatus) := fun a b =>
  match a, b with
  | .ok x, .ok y => decidable_of_iff (x = y) (by simp)
  | .error x, .error y => decidable_of_iff (x = y) (by simp)
  | .ok _, .error _ => isFalse (by simp)
  | .error _, .ok _ => isFalse (by simp)

/-- Modelled from the spec: the explicit transition table of the Card State
Machine (spec §4.1 and §9, "enumerated type with an explicit transition
table"); the implementation itself is not in src/, only the specification
document. Edges: PENDING→ACTIVE, ACTIVE→FROZEN, FROZEN→ACTIVE,
ACTIVE→CLOSED, FROZEN→CLOSED. -/
def allowedTransitions : List (CardStatus × CardStatus) :=
  [(.PENDING, .ACTIVE), (.ACTIVE, .FROZEN), (.FROZEN, .ACTIVE),
   (.ACTIVE, .CLOSED), (.FROZEN, .CLOSED)]

/-- Modelled from the spec: CardStateMachine.transition (spec §4.1) — returns
the requested state when the pair is in the transition table, otherwise fails
with InvalidStateTransition(current, requested). -/
def transition (current requested : CardStatus) :
    Except InvalidStateTransition CardStatus :=
  if (current, requested) ∈ allowedTransitions then .ok requested
  else .error ⟨current, requested⟩

/-- C2: transition(current, requested) succeeds and returns requested exactly
when (current, requested) is one of the five legal edges PENDING→ACTIVE,
ACTIVE→FROZEN, FROZEN→ACTIVE, ACTIVE→CLOSED, FROZEN→CLOSED; every other pair
(including every transition out of CLOSED and every self-transition) fails
with InvalidStateTransition(current, requested). -/
theorem card_fsm_transition_characterisation :
    ∀ current requested : CardStatus,
      (transition current requested = .ok requested ↔
        ((current = .PENDING ∧ requested = .ACTIVE) ∨
         (current = .ACTIVE ∧ requested = .FROZEN) ∨
         (current = .FROZEN ∧ requested = .ACTIVE) ∨
         (current = .ACTIVE ∧ requested = .CLOSED) ∨
         (current = .FROZEN ∧ requested = .CLOSED))) ∧
      (¬ ((current = .PENDING ∧ requested = .ACTIVE) ∨
          (current = .ACTIVE ∧ requested = .FROZEN) ∨
          (current = .FROZEN ∧ requested = .ACTIVE) ∨
          (current = .ACTIVE ∧ requested = .CLOSED) ∨
          (current = .FROZEN ∧ requested = .CLOSED)) →
        transition current requested =
          .error ⟨current, requested⟩) := by
  decide

/-- Calendar instant at the granularity the limit aggregates need: the
current UTC calendar month and the calendar day within it (spec §4.2 computes
its windows on UTC calendar days and months). -/
structure UtcDate where
  month : Nat
  day : Nat
deriving DecidableEq, Repr

/-- Card record (spec §3). -/
structure Card where
  id : Nat
  userId : Nat
  status : CardStatus
  currency : String
  singleTransactionLimit : Nat
  dailyLimit : Nat
  monthlyLimit : Nat
  mccBlocklist : List String
deriving DecidableEq, Repr

/-- Transaction record (spec §3). -/
structure Transaction where
  id : Nat
  cardId : Nat
  originalTransactionId : Option Nat
  type : TransactionType
  status : TransactionStatus
  amountMinor : Nat
  currency : String
  merchantCategoryCode : String
  authorizationCode : Option String
  declineReason : Option String
  idempotencyKey : String
  createdAt : UtcDate
deriving DecidableEq, Repr

/-- Modelled from the spec: statuses included in the spending aggregates —
only AUTHORIZED and SETTLED count (spec §4.2). -/
def countsTowardLimits (s : TransactionStatus) : Bool :=
  s == .AUTHORIZED || s == .SETTLED

/-- Modelled from the spec: the daily aggregate — sum of amountMinor over the
card's transactions with status AUTHORIZED or SETTLED created in the current
UTC calendar day (spec §4.2 step 3). -/
def dailySpent (txs : List Transaction) (cardId : Nat) (now : UtcDate) : Nat :=
  ((txs.filter (fun t =>
      t.cardId == cardId && countsTowardLimits t.status &&
        t.createdAt == now)).map (fun t => t.amountMinor)).sum

/-- Modelled from the spec: the monthly aggregate — same as daily but over
the current UTC calendar month (spec §4.2 step 4). -/
def monthlySpent (txs : List Transaction) (cardId : Nat) (now : UtcDate) :
    Nat :=
  ((txs.filter (fun t =>
      t.cardId == cardId && countsTowardLimits t.status &&
        t.createdAt.month == now.month)).map (fun t => t.amountMinor)).sum

/-- Result of LimitsService.evaluate (spec §4.2). -/
structure EvalResult where
  allowed : Bool
  reason : Option String
  failedStrategy : Option String
deriving DecidableEq, Repr

/-- Modelled from the spec: MccBlocklistStrategy.check — reject when the
merchant category code is in the card's blocklist (spec §4.2 step 1). -/
def mccBlocklistCheck (card : Card) (merchantCategoryCode : String) :
    Option (String × String) :=
  if merchantCategoryCode ∈ card.mccBlocklist then
    some ("mcc_blocked", "MccBlocklistStrategy")
  else none

/-- Modelled from the spec: PerTransactionStrategy.check — reject when the
proposed amount exceeds the per-transaction limit (spec §4.2 step 2). -/
def perTransactionCheck (card : Card) (proposedAmountMinor : Nat) :
    Option (String × String) :=
  if card.singleTransactionLimit < proposedAmountMinor then
    some ("per_transaction_limit", "PerTransactionStrategy")
  else none

/-- Modelled from the spec: DailyAggregateStrategy.check — reject when the
daily aggregate plus the proposed amount exceeds the daily limit
(spec §4.2 step 3). -/
def dailyAggregateCheck (txs : List Transaction) (card : Card)
    (proposedAmountMinor : Nat) (now : UtcDate) : Option (String × String) :=
  if card.dailyLimit < dailySpent txs card.id now + proposedAmountMinor then
    some ("daily_limit", "DailyAggregateStrategy")
  else none

/-- Modelled from the spec: MonthlyAggregateStrategy.check — reject when the
monthly aggregate plus the proposed amount exceeds the monthly limit
(spec §4.2 step 4). -/
def monthlyAggregateCheck (txs : List Transaction) (card : Card)
    (proposedAmountMinor : Nat) (now : UtcDate) : Option (String × String) :=
  if card.monthlyLimit < monthlySpent txs card.id now + proposedAmountMinor then
    some ("monthly_limit", "MonthlyAggregateStrategy")
  else none

/-- Short-circuit fold over the ordered strategy results: the first failure
wins (spec §9, "ordered list + short-circuit fold"). -/
def firstFailure : List (Option (String × String)) → Option (String × String)
  | [] => none
  | some r :: _ => some r
  | none :: rest => firstFailure rest

/-- Modelled from the spec: LimitsService.evaluate — runs the four strategies
in the fixed order MCC blocklist, per-transaction, daily aggregate, monthly
aggregate, short-circuiting on the first failure (spec §4.2); the
implementation itself is not in src/, only the specification document. -/
def evaluate (txs : List Transaction) (card : Card)
    (proposedAmountMinor : Nat) (merchantCategoryCode : String)
    (now : UtcDate) : EvalResult :=
  match firstFailure
      [mccBlocklistCheck card merchantCategoryCode,
       perTransactionCheck card proposedAmountMinor,
       dailyAggregateCheck txs card proposedAmountMinor now,
       monthlyAggregateCheck txs card proposedAmountMinor now] with
  | some (r, s) => ⟨false, some r, some s⟩
  | none => ⟨true, none, none⟩

/-- C6: evaluate runs its strategies in the fixed order MCC blocklist,
per-transaction limit, daily aggregate, monthly aggregate, short-circuiting
at the first failure; in particular a request violating both the MCC
blocklist and the daily limit reports mcc_blocked and never daily_limit. -/
theorem evaluate_strategy_order (txs : List Transaction) (card : Card)
    (amount : Nat) (mcc : String) (now : UtcDate) :
    (mcc ∈ card.mccBlocklist →
      evaluate txs card amount mcc now =
        ⟨false, some "mcc_blocked", some "MccBlocklistStrategy"⟩) ∧
    (mcc ∉ card.mccBlocklist → card.singleTransactionLimit < amount →
      evaluate txs card amount mcc now =
        ⟨false, some "per_transaction_limit", some "PerTransactionStrategy"⟩) ∧
    (mcc ∉ card.mccBlocklist → amount ≤ card.singleTransactionLimit →
      card.dailyLimit < dailySpent txs card.id now + amount →
      evaluate txs card amount mcc now =
        ⟨false, some "daily_limit", some "DailyAggregateStrategy"⟩) ∧
    (mcc ∉ card.mccBlocklist → amount ≤ card.singleTransactionLimit →
      dailySpent txs card.id now + amount ≤ card.dailyLimit →
      card.monthlyLimit < monthlySpent txs card.id now + amount →
      evaluate txs card amount mcc now =
        ⟨false, some "monthly_limit", some "MonthlyAggregateStrategy"⟩) ∧
    (mcc ∉ card.mccBlocklist → amount ≤ card.singleTransactionLimit →
      dailySpent txs card.id now + amount ≤ card.dailyLimit →
      monthlySpent txs card.id now + amount ≤ card.monthlyLimit →
      evaluate txs card amount mcc now = ⟨true, none, none⟩) ∧
    (mcc ∈ card.mccBlocklist →
      card.dailyLimit < dailySpent txs card.id now + amount →
      (evaluate txs card amount mcc now).reason = some "mcc_blocked" ∧
        (evaluate txs card amount mcc now).reason ≠ some "daily_limit") := by
  refine ⟨?_, ?_, ?_, ?_, ?_, ?_⟩ <;>
    intro h1
  · simp [evaluate, firstFailure, mccBlocklistCheck, h1]
  · intro h2
    simp [evaluate, firstFailure, mccBlocklistCheck, perTransactionCheck,
      h1, h2]
  · intro h2 h3
    simp [evaluate, firstFailure, mccBlocklistCheck, perTransactionCheck,
      dailyAggregateCheck, h1, Nat.not_lt.mpr h2, h3]
  · intro h2 h3 h4
    simp [evaluate, firstFailure, mccBlocklistCheck, perTransactionCheck,
      dailyAggregateCheck, monthlyAggregateCheck, h1, Nat.not_lt.mpr h2,
      Nat.not_lt.mpr h3, h4]
  · intro h2 h3 h4
    simp [evaluate, firstFailure, mccBlocklistCheck, perTransactionCheck,
      dailyAggregateCheck, monthlyAggregateCheck, h1, Nat.not_lt.mpr h2,
      Nat.not_lt.mpr h3, Nat.not_lt.mpr h4]
  · intro h2
    simp [evaluate, firstFailure, mccBlocklistCheck, h1]

/-- A concrete card used to instantiate the limit theorems: gambling MCC
blocked, tight daily limit. -/
def sampleCard : Card where
  id := 1
  userId := 1
  status := .ACTIVE
  currency := "USD"
  singleTransactionLimit := 10
  dailyLimit := 10
  monthlyLimit := 10
  mccBlocklist := ["7995"]

/-- C6 witness: a concrete request violating both the MCC blocklist and the
daily limit is declined with reason mcc_blocked, not daily_limit. -/
theorem evaluate_strategy_order_witness :
    "7995" ∈ sampleCard.mccBlocklist ∧
    (evaluate [] sampleCard 50 "7995" ⟨1, 1⟩).reason = some "mcc_blocked" :=
  ⟨by decide,
   ((evaluate_strategy_order [] sampleCard 50 "7995"
      ⟨1, 1⟩).2.2.2.2.2 (by decide) (by decide)).1⟩

/-- C7: the daily-aggregate check rejects exactly when the sum of amountMinor
over the card's AUTHORIZED/SETTLED transactions of the current UTC day plus
the proposed amount exceeds the daily limit (monthly analogously for the
current UTC month), and DECLINED, REFUNDED and REVERSED transactions never
contribute to either aggregate. -/
theorem daily_aggregate_characterisation (txs : List Transaction)
    (card : Card) (amount : Nat) (now : UtcDate) :
    ((dailyAggregateCheck txs card amount now).isSome ↔
      card.dailyLimit < dailySpent txs card.id now + amount) ∧
    ((monthlyAggregateCheck txs card amount now).isSome ↔
      card.monthlyLimit < monthlySpent txs card.id now + amount) ∧
    (∀ t : Transaction,
      (t.status = .DECLINED ∨ t.status = .REFUNDED ∨ t.status = .REVERSED) →
      dailySpent (t :: txs) card.id now = dailySpent txs card.id now ∧
        monthlySpent (t :: txs) card.id now = monthlySpent txs card.id now) ∧
    (∀ t : Transaction, t.cardId = card.id →
      (t.status = .AUTHORIZED ∨ t.status = .SETTLED) → t.createdAt = now →
      dailySpent (t :: txs) card.id now =
        t.amountMinor + dailySpent txs card.id now) := by
  refine ⟨?_, ?_, ?_, ?_⟩
  · by_cases h : card.dailyLimit < dailySpent txs card.id now + amount <;>
      simp [dailyAggregateCheck, h]
  · by_cases h : card.monthlyLimit < monthlySpent txs card.id now + amount <;>
      simp [monthlyAggregateCheck, h]
  · intro t ht
    have hc : countsTowardLimits t.status = false := by
      rcases ht with h | h | h <;> simp [countsTowardLimits, h]
    constructor <;> simp [dailySpent, monthlySpent, List.filter, hc]
  · intro t hcard hst hday
    have hc : countsTowardLimits t.status = true := by
      rcases hst with h | h <;> simp [countsTowardLimits, h]
    simp [dailySpent, List.filter, hc, hcard, hday]

/-- A concrete card with a wide blocklist-free policy and a daily limit of
100, used to instantiate the aggregate theorems. -/
def plainCard : Card where
  id := 1
  userId := 1
  status := .ACTIVE
  currency := "USD"
  singleTransactionLimit := 1000
  dailyLimit := 100
  monthlyLimit := 1000
  mccBlocklist := []

/-- A concrete SETTLED transaction of 60 minor units on card 1. -/
def settledTx : Transaction where
  id := 2
  cardId := 1
  originalTransactionId := none
  type := .AUTHORIZATION
  status := .SETTLED
  amountMinor := 60
  currency := "USD"
  merchantCategoryCode := "5411"
  authorizationCode := some "A1"
  declineReason := none
  idempotencyKey := "k1"
  createdAt := ⟨5, 3⟩

/-- A concrete REFUND transaction of 60 minor units linked to transaction 2. -/
def refundedTx : Transaction where
  id := 3
  cardId := 1
  originalTransactionId := some 2
  type := .REFUND
  status := .REFUNDED
  amountMinor := 60
  currency := "USD"
  merchantCategoryCode := "5411"
  authorizationCode := none
  declineReason := none
  idempotencyKey := "k2"
  createdAt := ⟨5, 3⟩

/-- C7 witness: with one SETTLED transaction of 60 today, a proposed 50
trips the daily check against a limit of 100, and a REFUNDED transaction
contributes nothing to the aggregate. -/
theorem daily_aggregate_characterisation_witness :
    ((dailyAggregateCheck [settledTx] plainCard 50 ⟨5, 3⟩).isSome ↔
      (100 : Nat) < 60 + 50) ∧
    dailySpent [refundedTx] 1 ⟨5, 3⟩ = 0 := by
  have h := daily_aggregate_characterisation [settledTx] plainCard 50 ⟨5, 3⟩
  have h2 := daily_aggregate_characterisation ([] : List Transaction)
    plainCard 1 ⟨5, 3⟩
  refine ⟨?_, ?_⟩
  · rw [h.1]
    decide
  · have h3 := (h2.2.2.1 refundedTx (by simp [refundedTx])).1
    exact h3.trans (by decide)

/-- Ledger entry record (spec §3); the externally generated UUIDv7 row id
plays no role in any claim and is omitted from the embedding. -/
structure LedgerEntry where
  transactionId : Nat
  ledgerAccountId : Nat
  entryType : EntryType
  amountMinor : Nat
  currency : String
deriving DecidableEq, Repr

/-- The persistent state the Transaction Processor operates on: the
Transaction table and the append-only LedgerEntry table. -/
structure LedgerState where
  transactions : List Transaction
  entries : List LedgerEntry
deriving DecidableEq, Repr

/-- Modelled from the spec: Ledger Engine postAuthorization (spec §4.3) —
creates exactly two LedgerEntry rows, DEBIT on the cardholder account and
CREDIT on the merchant account, both with the transaction's amountMinor and
currency; the implementation itself is not in src/, only the specification
document. -/
def postAuthorization (tx : Transaction)
    (cardHolderAccount merchantAccount : Nat) : List LedgerEntry :=
  [{ transactionId := tx.id, ledgerAccountId := cardHolderAccount,
     entryType := .DEBIT, amountMinor := tx.amountMinor,
     currency := tx.currency },
   { transactionId := tx.id, ledgerAccountId := merchantAccount,
     entryType := .CREDIT, amountMinor := tx.amountMinor,
     currency := tx.currency }]

/-- Modelled from the spec: Ledger Engine postRefund (spec §4.3) — the
mirrored pair: CREDIT on the cardholder account, DEBIT on the merchant
account. -/
def postRefund (tx : Transaction)
    (cardHolderAccount merchantAccount : Nat) : List LedgerEntry :=
  [{ transactionId := tx.id, ledgerAccountId := cardHolderAccount,
     entryType := .CREDIT, amountMinor := tx.amountMinor,
     currency := tx.currency },
   { transactionId := tx.id, ledgerAccountId := merchantAccount,
     entryType := .DEBIT, amountMinor := tx.amountMinor,
     currency := tx.currency }]

/-- Sum of DEBIT amounts posted against one transactionId (spec §4.3
invariant). -/
def debitTotal (es : List LedgerEntry) (txId : Nat) : Nat :=
  ((es.filter (fun e => e.transactionId == txId && e.entryType == .DEBIT)).map
    (fun e => e.amountMinor)).sum

/-- Sum of CREDIT amounts posted against one transactionId (spec §4.3
invariant). -/
def creditTotal (es : List LedgerEntry) (txId : Nat) : Nat :=
  ((es.filter (fun e => e.transactionId == txId && e.entryType == .CREDIT)).map
    (fun e => e.amountMinor)).sum

/-- The double-entry balance invariant: per transactionId, debits equal
credits (spec §4.3). -/
def balancedLedger (es : List LedgerEntry) : Prop :=
  ∀ txId : Nat, debitTotal es txId = creditTotal es txId

theorem debitTotal_append (es fs : List LedgerEntry) (txId : Nat) :
    debitTotal (es ++ fs) txId = debitTotal es txId + debitTotal fs txId := by
  simp [debitTotal, List.filter_append]

theorem creditTotal_append (es fs : List LedgerEntry) (txId : Nat) :
    creditTotal (es ++ fs) txId = creditTotal es txId + creditTotal fs txId := by
  simp [creditTotal, List.filter_append]

theorem balancedLedger_append {es fs : List LedgerEntry}
    (h1 : balancedLedger es) (h2 : balancedLedger fs) :
    balancedLedger (es ++ fs) := by
  intro txId
  rw [debitTotal_append, creditTotal_append, h1 txId, h2 txId]

theorem beq_debit_debit : (EntryType.DEBIT == EntryType.DEBIT) = true := rfl

theorem beq_credit_credit :
    (EntryType.CREDIT == EntryType.CREDIT) = true := rfl

theorem beq_debit_credit :
    (EntryType.DEBIT == EntryType.CREDIT) = false := rfl

theorem beq_credit_debit :
    (EntryType.CREDIT == EntryType.DEBIT) = false := rfl

theorem balancedLedger_postAuthorization (tx : Transaction) (ch m : Nat) :
    balancedLedger (postAuthorization tx ch m) := by
  intro txId
  by_cases h : tx.id = txId
  · subst h
    simp [postAuthorization, debitTotal, creditTotal, List.filter,
      beq_debit_debit, beq_credit_credit, beq_debit_credit, beq_credit_debit]
  · have hb : (tx.id == txId) = false := by simpa using h
    simp [postAuthorization, debitTotal, creditTotal, List.filter, hb]

theorem balancedLedger_postRefund (tx : Transaction) (ch m : Nat) :
    balancedLedger (postRefund tx ch m) := by
  intro txId
  by_cases h : tx.id = txId
  · subst h
    simp [postRefund, debitTotal, creditTotal, List.filter,
      beq_debit_debit, beq_credit_credit, beq_debit_credit, beq_credit_debit]
  · have hb : (tx.id == txId) = false := by simpa using h
    simp [postRefund, debitTotal, creditTotal, List.filter, hb]

/-- Authorization request body (spec §6, POST authorize). -/
structure AuthRequest where
  cardId : Nat
  amountMinor : Nat
  currency : String
  merchantId : Nat
  merchantName : String
  merchantCategoryCode : String
  idempotencyKey : String
deriving DecidableEq, Repr

/-- Authorization response (spec §6). -/
structure AuthResponse where
  approved : Bool
  authorizationCode : Option String
  declineReason : Option String
deriving DecidableEq, Repr

/-- Modelled from the spec: the DECLINED Transaction row written for a denied
authorization (spec §4.4) — type AUTHORIZATION, status DECLINED, no ledger
entries. -/
def declinedTransaction (card : Card) (req : AuthRequest) (now : UtcDate)
    (newTxId : Nat) (reason : String) : Transaction where
  id := newTxId
  cardId := card.id
  originalTransactionId := none
  type := .AUTHORIZATION
  status := .DECLINED
  amountMinor := req.amountMinor
  currency := req.currency
  merchantCategoryCode := req.merchantCategoryCode
  authorizationCode := none
  declineReason := some reason
  idempotencyKey := req.idempotencyKey
  createdAt := now

/-- Modelled from the spec: the AUTHORIZED Transaction row written for an
approved authorization (spec §4.4). -/
def authorizedTransaction (card : Card) (req : AuthRequest) (now : UtcDate)
    (newTxId : Nat) (authCode : String) : Transaction where
  id := newTxId
  cardId := card.id
  originalTransactionId := none
  type := .AUTHORIZATION
  status := .AUTHORIZED
  amountMinor := req.amountMinor
  currency := req.currency
  merchantCategoryCode := req.merchantCategoryCode
  authorizationCode := some authCode
  declineReason := none
  idempotencyKey := req.idempotencyKey
  createdAt := now

/-- Modelled from the spec: TransactionsService.processAuthorization
(spec §4.4) — card not ACTIVE gives a DECLINED row without ledger entries;
a limit failure gives a DECLINED row with the failed strategy's reason and
no ledger entries; approval inserts an AUTHORIZED row plus the balanced
postAuthorization pair. Fresh ids, the authorization code and the resolved
ledger-account ids are supplied by the caller, as environment inputs. -/
def processAuthorization (s : LedgerState) (card : Card) (req : AuthRequest)
    (now : UtcDate) (newTxId : Nat) (authCode : String)
    (cardHolderAccount merchantAccount : Nat) : AuthResponse × LedgerState :=
  if card.status = .ACTIVE then
    let ev := evaluate s.transactions card req.amountMinor
      req.merchantCategoryCode now
    if ev.allowed then
      let tx := authorizedTransaction card req now newTxId authCode
      (⟨true, some authCode, none⟩,
       ⟨s.transactions ++ [tx],
        s.entries ++ postAuthorization tx cardHolderAccount merchantAccount⟩)
    else
      (⟨false, none, ev.reason⟩,
       ⟨s.transactions ++
          [declinedTransaction card req now newTxId (ev.reason.getD "")],
        s.entries⟩)
  else
    (⟨false, none, some "card_not_active"⟩,
     ⟨s.transactions ++
        [declinedTransaction card req now newTxId "card_not_active"],
      s.entries⟩)

/-- Settlement outcome (spec §4.4 processSettlement). -/
inductive SettleResult
  | settled
  | unsupportedEvent
  | notFound
deriving DecidableEq, Repr

/-- In-place status update of the settled transaction row (spec §4.4: update
status to SETTLED in place). -/
def setSettled (txs : List Transaction) (code : String) : List Transaction :=
  txs.map (fun t =>
    if t.authorizationCode == some code then { t with status := .SETTLED }
    else t)

/-- Modelled from the spec: TransactionsService.processSettlement (spec §4.4)
— finds the Transaction by authorizationCode (it must currently be
AUTHORIZED), rejects with unsupported_event on any amount or currency
mismatch, otherwise updates the status to SETTLED in place with no new
Transaction row and no new ledger entries. -/
def processSettlement (s : LedgerState) (authorizationCode : String)
    (settlementAmountMinor : Nat) (settlementCurrency : String) :
    SettleResult × LedgerState :=
  match s.transactions.find?
      (fun t => t.authorizationCode == some authorizationCode) with
  | none => (.notFound, s)
  | some tx =>
    if tx.status = .AUTHORIZED then
      if settlementAmountMinor = tx.amountMinor ∧
          settlementCurrency = tx.currency then
        (.settled,
         ⟨setSettled s.transactions authorizationCode, s.entries⟩)
      else (.unsupportedEvent, s)
    else (.notFound, s)

/-- Refund outcome (spec §4.4 processRefund). -/
inductive RefundResult
  | refunded
  | rejected
  | notFound
deriving DecidableEq, Repr

/-- Modelled from the spec: the cumulative amount of REFUND transactions
already linked to an original transaction (spec §4.4). -/
def refundedSoFar (txs : List Transaction) (originalId : Nat) : Nat :=
  ((txs.filter (fun t =>
      t.type == .REFUND && t.originalTransactionId == some originalId)).map
    (fun t => t.amountMinor)).sum

/-- Modelled from the spec: the REFUND Transaction row (spec §4.4) — type
REFUND, status REFUNDED, linked via originalTransactionId. -/
def refundTransaction (original : Transaction) (amt : Nat) (newTxId : Nat)
    (key : String) (now : UtcDate) : Transaction where
  id := newTxId
  cardId := original.cardId
  originalTransactionId := some original.id
  type := .REFUND
  status := .REFUNDED
  amountMinor := amt
  currency := original.currency
  merchantCategoryCode := original.merchantCategoryCode
  authorizationCode := none
  declineReason := none
  idempotencyKey := key
  createdAt := now

/-- Modelled from the spec: TransactionsService.processRefund (spec §4.4) —
the original must exist and be AUTHORIZED or SETTLED; the refund amount
defaults to the full original amount; the refund is rejected when the
cumulative refunded-so-far plus this refund exceeds the original amount;
on success a new REFUND transaction and the mirrored ledger pair are
appended. -/
def processRefund (s : LedgerState) (originalTransactionId : Nat)
    (refundAmountMinor : Option Nat) (newTxId : Nat) (key : String)
    (now : UtcDate) (cardHolderAccount merchantAccount : Nat) :
    RefundResult × LedgerState :=
  match s.transactions.find? (fun t => t.id == originalTransactionId) with
  | none => (.notFound, s)
  | some original =>
    if original.status = .AUTHORIZED ∨ original.status = .SETTLED then
      let amt := refundAmountMinor.getD original.amountMinor
      if original.amountMinor <
          refundedSoFar s.transactions originalTransactionId + amt then
        (.rejected, s)
      else
        let tx := refundTransaction original amt newTxId key now
        (.refunded,
         ⟨s.transactions ++ [tx],
          s.entries ++ postRefund tx cardHolderAccount merchantAccount⟩)
    else (.notFound, s)

/-- C1: postAuthorization and postRefund each create exactly two LedgerEntry
rows — one DEBIT and one CREDIT, each with the transaction's amountMinor, the
refund pair mirrored (CREDIT cardholder, DEBIT merchant) — so the per
transactionId debit/credit balance invariant is preserved by authorization
and refund, while settlement and declines never create any ledger entry. -/
theorem double_entry_invariant :
    (∀ (tx : Transaction) (ch m : Nat),
      (postAuthorization tx ch m).length = 2 ∧
      (postAuthorization tx ch m).filter (fun e => e.entryType == .DEBIT) =
        [⟨tx.id, ch, .DEBIT, tx.amountMinor, tx.currency⟩] ∧
      (postAuthorization tx ch m).filter (fun e => e.entryType == .CREDIT) =
        [⟨tx.id, m, .CREDIT, tx.amountMinor, tx.currency⟩]) ∧
    (∀ (tx : Transaction) (ch m : Nat),
      (postRefund tx ch m).length = 2 ∧
      (postRefund tx ch m).filter (fun e => e.entryType == .CREDIT) =
        [⟨tx.id, ch, .CREDIT, tx.amountMinor, tx.currency⟩] ∧
      (postRefund tx ch m).filter (fun e => e.entryType == .DEBIT) =
        [⟨tx.id, m, .DEBIT, tx.amountMinor, tx.currency⟩]) ∧
    (∀ (s : LedgerState) (card : Card) (req : AuthRequest) (now : UtcDate)
        (newTxId : Nat) (authCode : String) (ch m : Nat),
      balancedLedger s.entries →
      balancedLedger
        (processAuthorization s card req now newTxId authCode ch m).2.entries) ∧
    (∀ (s : LedgerState) (card : Card) (req : AuthRequest) (now : UtcDate)
        (newTxId : Nat) (authCode : String) (ch m : Nat),
      ¬ (card.status = .ACTIVE ∧
          (evaluate s.transactions card req.amountMinor
            req.merchantCategoryCode now).allowed = true) →
      (processAuthorization s card req now newTxId authCode ch m).2.entries =
        s.entries) ∧
    (∀ (s : LedgerState) (code : String) (amt : Nat) (cur : String),
      (processSettlement s code amt cur).2.entries = s.entries) ∧
    (∀ (s : LedgerState) (oid : Nat) (ramt : Option Nat) (newTxId : Nat)
        (key : String) (now : UtcDate) (ch m : Nat),
      balancedLedger s.entries →
      balancedLedger
        (processRefund s oid ramt newTxId key now ch m).2.entries) := by
  refine ⟨?_, ?_, ?_, ?_, ?_, ?_⟩
  · intro tx ch m
    refine ⟨rfl, ?_, ?_⟩ <;>
      simp [postAuthorization, List.filter, beq_debit_debit,
        beq_credit_credit, beq_debit_credit, beq_credit_debit]
  · intro tx ch m
    refine ⟨rfl, ?_, ?_⟩ <;>
      simp [postRefund, List.filter, beq_debit_debit,
        beq_credit_credit, beq_debit_credit, beq_credit_debit]
  · intro s card req now newTxId authCode ch m hbal
    by_cases hA : card.status = .ACTIVE
    · by_cases hE : (evaluate s.transactions card req.amountMinor
        req.merchantCategoryCode now).allowed = true
      · simp only [processAuthorization, hA, hE, if_true, if_pos]
        exact balancedLedger_append hbal
          (balancedLedger_postAuthorization _ _ _)
      · simp only [processAuthorization, hA, hE, if_true, if_false, if_pos,
          if_neg, not_false_eq_true]
        exact hbal
    · simp only [processAuthorization, hA, if_neg, not_false_eq_true]
      exact hbal
  · intro s card req now newTxId authCode ch m h
    by_cases hA : card.status = .ACTIVE
    · have hE : ¬ (evaluate s.transactions card req.amountMinor
        req.merchantCategoryCode now).allowed = true :=
        fun he => h ⟨hA, he⟩
      simp [processAuthorization, hA, hE]
    · simp [processAuthorization, hA]
  · intro s code amt cur
    simp only [processSettlement]
    split
    · rfl
    · split
      · split
        · rfl
        · rfl
      · rfl
  · intro s oid ramt newTxId key now ch m hbal
    simp only [processRefund]
    split
    · exact hbal
    · split
      · split
        · exact hbal
        · exact balancedLedger_append hbal (balancedLedger_postRefund _ _ _)
      · exact hbal

/-- A concrete authorization request used to instantiate the processor
theorems. -/
def sampleAuthReq : AuthRequest where
  cardId := 1
  amountMinor := 50
  currency := "USD"
  merchantId := 7
  merchantName := "Coffee"
  merchantCategoryCode := "5411"
  idempotencyKey := "ka1"

/-- A concrete AUTHORIZED transaction of 1000 minor units on card 1. -/
def authTx1000 : Transaction where
  id := 1
  cardId := 1
  originalTransactionId := none
  type := .AUTHORIZATION
  status := .AUTHORIZED
  amountMinor := 1000
  currency := "USD"
  merchantCategoryCode := "5411"
  authorizationCode := some "AC1"
  declineReason := none
  idempotencyKey := "ka"
  createdAt := ⟨5, 3⟩

/-- Ledger state holding the 1000-unit authorization and its balanced entry
pair. -/
def refundScenario0 : LedgerState :=
  ⟨[authTx1000], postAuthorization authTx1000 10 20⟩

/-- State after the first partial refund of 400. -/
def refundScenario1 : LedgerState :=
  (processRefund refundScenario0 1 (some 400) 2 "kr1" ⟨5, 3⟩ 10 20).2

/-- State after the second partial refund of 400. -/
def refundScenario2 : LedgerState :=
  (processRefund refundScenario1 1 (some 400) 3 "kr2" ⟨5, 3⟩ 10 20).2

/-- C1 witness: processing a concrete authorization against an empty, and so
balanced, ledger leaves the ledger balanced. -/
theorem double_entry_invariant_witness :
    balancedLedger
      (processAuthorization ⟨[], []⟩ plainCard sampleAuthReq ⟨5, 3⟩ 1 "A1"
        10 20).2.entries :=
  double_entry_invariant.2.2.1 ⟨[], []⟩ plainCard sampleAuthReq ⟨5, 3⟩ 1 "A1"
    10 20 (fun _ => rfl)

/-- C3: against a Transaction that is currently AUTHORIZED, processSettlement
rejects with unsupported_event exactly when the settlement amount or currency
differs, leaving the state unchanged; on a match it flips the status to
SETTLED in place, with no new Transaction row and no new ledger entries. -/
theorem settlement_exact_match (s : LedgerState) (code : String) (amt : Nat)
    (cur : String) (tx : Transaction)
    (hfind : s.transactions.find?
      (fun t => t.authorizationCode == some code) = some tx)
    (hstatus : tx.status = .AUTHORIZED) :
    ((processSettlement s code amt cur).1 = .unsupportedEvent ↔
      amt ≠ tx.amountMinor ∨ cur ≠ tx.currency) ∧
    (amt ≠ tx.amountMinor ∨ cur ≠ tx.currency →
      (processSettlement s code amt cur).2 = s) ∧
    (amt = tx.amountMinor → cur = tx.currency →
      (processSettlement s code amt cur).1 = .settled ∧
      (processSettlement s code amt cur).2.entries = s.entries ∧
      (processSettlement s code amt cur).2.transactions.length =
        s.transactions.length ∧
      { tx with status := TransactionStatus.SETTLED } ∈
        (processSettlement s code amt cur).2.transactions ∧
      ∀ t ∈ s.transactions, t.authorizationCode ≠ some code →
        t ∈ (processSettlement s code amt cur).2.transactions) := by
  have hred : processSettlement s code amt cur =
      if amt = tx.amountMinor ∧ cur = tx.currency then
        (.settled, ⟨setSettled s.transactions code, s.entries⟩)
      else (.unsupportedEvent, s) := by
    simp only [processSettlement, hfind]
    rw [if_pos hstatus]
  by_cases hm : amt = tx.amountMinor ∧ cur = tx.currency
  · rw [hred, if_pos hm]
    refine ⟨?_, ?_, ?_⟩
    · simp [hm.1, hm.2]
    · intro hne
      rcases hne with h | h
      · exact absurd hm.1 h
      · exact absurd hm.2 h
    · intro _ _
      refine ⟨rfl, rfl, ?_, ?_, ?_⟩
      · simp [setSettled]
      · have hmem : tx ∈ s.transactions := List.mem_of_find?_eq_some hfind
        have hpred : (tx.authorizationCode == some code) = true := by
          simpa using List.find?_some hfind
        have hin := List.mem_map_of_mem (fun t =>
          if t.authorizationCode == some code then
            { t with status := TransactionStatus.SETTLED }
          else t) hmem
        simp only [hpred, if_true] at hin
        exact hin
      · intro t hmem hne
        have hpred : (t.authorizationCode == some code) = false := by
          simpa using hne
        have hin := List.mem_map_of_mem (fun u =>
          if u.authorizationCode == some code then
            { u with status := TransactionStatus.SETTLED }
          else u) hmem
        simp only [hpred, if_false, Bool.false_eq_true] at hin
        exact hin
  · rw [hred, if_neg hm]
    refine ⟨?_, ?_, ?_⟩
    · exact ⟨fun _ => not_and_or.mp hm, fun _ => rfl⟩
    · intro _
      rfl
    · intro h1 h2
      exact absurd ⟨h1, h2⟩ hm

/-- C3 witness: settling the 1000-unit authorization with 900 is rejected as
unsupported_event and the state is untouched; settling with the exact amount
succeeds. -/
theorem settlement_exact_match_witness :
    (processSettlement refundScenario0 "AC1" 900 "USD").1 =
      .unsupportedEvent ∧
    (processSettlement refundScenario0 "AC1" 900 "USD").2 =
      refundScenario0 ∧
    (processSettlement refundScenario0 "AC1" 1000 "USD").1 = .settled := by
  have h9 := settlement_exact_match refundScenario0 "AC1" 900 "USD"
    authTx1000 (by rfl) rfl
  have h10 := settlement_exact_match refundScenario0 "AC1" 1000 "USD"
    authTx1000 (by rfl) rfl
  exact ⟨h9.1.mpr (Or.inl (by decide)), h9.2.1 (Or.inl (by decide)),
    (h10.2.2 rfl rfl).1⟩

/-- C4: when the original transaction exists and is AUTHORIZED or SETTLED,
the refund amount defaults to the full original amount, the refund is
rejected exactly when already-refunded plus this refund exceeds the original
amount (leaving the state unchanged), and on success a new
Transaction(REFUND, REFUNDED, originalTransactionId = original.id) with the
refund amount is appended. -/
theorem refund_cumulative_cap (s : LedgerState) (oid : Nat)
    (ramt : Option Nat) (newTxId : Nat) (key : String) (now : UtcDate)
    (ch m : Nat) (original : Transaction)
    (hfind : s.transactions.find? (fun t => t.id == oid) = some original)
    (hstatus : original.status = .AUTHORIZED ∨ original.status = .SETTLED) :
    ((processRefund s oid ramt newTxId key now ch m).1 = .rejected ↔
      original.amountMinor <
        refundedSoFar s.transactions oid + ramt.getD original.amountMinor) ∧
    (original.amountMinor <
        refundedSoFar s.transactions oid + ramt.getD original.amountMinor →
      (processRefund s oid ramt newTxId key now ch m).2 = s) ∧
    (refundedSoFar s.transactions oid + ramt.getD original.amountMinor ≤
        original.amountMinor →
      (processRefund s oid ramt newTxId key now ch m).1 = .refunded ∧
      (processRefund s oid ramt newTxId key now ch m).2.transactions =
        s.transactions ++
          [refundTransaction original (ramt.getD original.amountMinor)
            newTxId key now]) ∧
    (ramt = none → ramt.getD original.amountMinor = original.amountMinor) ∧
    (∀ (a i : Nat) (k : String) (n : UtcDate),
      (refundTransaction original a i k n).type = .REFUND ∧
      (refundTransaction original a i k n).status = .REFUNDED ∧
      (refundTransaction original a i k n).originalTransactionId =
        some original.id ∧
      (refundTransaction original a i k n).amountMinor = a) := by
  have hred : processRefund s oid ramt newTxId key now ch m =
      if original.amountMinor <
          refundedSoFar s.transactions oid + ramt.getD original.amountMinor
        then (.rejected, s)
      else (.refunded,
        ⟨s.transactions ++
          [refundTransaction original (ramt.getD original.amountMinor)
            newTxId key now],
         s.entries ++
          postRefund (refundTransaction original
            (ramt.getD original.amountMinor) newTxId key now) ch m⟩) := by
    simp only [processRefund, hfind]
    rw [if_pos hstatus]
  by_cases hlt : original.amountMinor <
      refundedSoFar s.transactions oid + ramt.getD original.amountMinor
  · rw [hred, if_pos hlt]
    refine ⟨by simp [hlt], fun _ => rfl, ?_, fun h => by simp [h], ?_⟩
    · intro hle
      exact absurd hlt (Nat.not_lt.mpr hle)
    · intro a i k n
      exact ⟨rfl, rfl, rfl, rfl⟩
  · rw [hred, if_neg hlt]
    refine ⟨by simp [hlt], fun h => absurd h hlt, fun _ => ⟨rfl, rfl⟩,
      fun h => by simp [h], ?_⟩
    intro a i k n
    exact ⟨rfl, rfl, rfl, rfl⟩

/-- C4 witness: after authorizing 1000, refunds of 400 and 400 succeed and a
further refund of 300 is rejected. -/
theorem refund_cumulative_cap_witness :
    (processRefund refundScenario0 1 (some 400) 2 "kr1" ⟨5, 3⟩ 10 20).1 =
      .refunded ∧
    (processRefund refundScenario1 1 (some 400) 3 "kr2" ⟨5, 3⟩ 10 20).1 =
      .refunded ∧
    (processRefund refundScenario2 1 (some 300) 4 "kr3" ⟨5, 3⟩ 10 20).1 =
      .rejected := by
  have h1 := refund_cumulative_cap refundScenario0 1 (some 400) 2 "kr1"
    ⟨5, 3⟩ 10 20 authTx1000 (by rfl) (Or.inl rfl)
  have h2 := refund_cumulative_cap refundScenario1 1 (some 400) 3 "kr2"
    ⟨5, 3⟩ 10 20 authTx1000 (by rfl) (Or.inl rfl)
  have h3 := refund_cumulative_cap refundScenario2 1 (some 300) 4 "kr3"
    ⟨5, 3⟩ 10 20 authTx1000 (by rfl) (Or.inl rfl)
  exact ⟨(h1.2.2.1 (by decide)).1, (h2.2.2.1 (by decide)).1,
    h3.1.mpr (by decide)⟩

/-- Idempotency record (spec §3): key, scope, payload hash and the cached
response. -/
structure IdempotencyRecord where
  key : String
  scope : String
  payloadHash : String
  responseStatus : Nat
  responseBody : String
deriving DecidableEq, Repr

/-- The response a handler produces or the guard replays. -/
structure HttpResponse where
  status : Nat
  body : String
deriving DecidableEq, Repr

/-- Business state plus the idempotency_keys store. -/
structure GuardedState where
  records : List IdempotencyRecord
  ledger : LedgerState
deriving Repr

/-- Lookup in the idempotency store by the composite (key, scope). -/
def lookupRecord (records : List IdempotencyRecord) (key scope : String) :
    Option IdempotencyRecord :=
  records.find? (fun r => r.key == key && r.scope == scope)

/-- Modelled from the spec: the Idempotency Guard wrapped around a mutating
operation (spec §4.4/§5/§6, idempotency_keys behaviour of the source
specification): an already-seen (key, scope) with identical payload hash
replays the cached status and body without executing the operation; a
different payload hash yields a 409 idempotency_key_payload_mismatch and
executes nothing; a fresh pair executes the operation and caches its
response. The implementation is not in src/, only the specification
document. -/
def runIdempotent (g : GuardedState) (key scope payloadHash : String)
    (exec : LedgerState → HttpResponse × LedgerState) :
    HttpResponse × GuardedState :=
  match lookupRecord g.records key scope with
  | some r =>
    if r.payloadHash = payloadHash then
      (⟨r.responseStatus, r.responseBody⟩, g)
    else
      (⟨409, "idempotency_key_payload_mismatch"⟩, g)
  | none =>
    ((exec g.ledger).1,
     ⟨g.records ++
        [⟨key, scope, payloadHash, (exec g.ledger).1.status,
          (exec g.ledger).1.body⟩],
      (exec g.ledger).2⟩)

theorem runIdempotent_fresh (g : GuardedState) (key scope ph : String)
    (exec : LedgerState → HttpResponse × LedgerState)
    (hfresh : lookupRecord g.records key scope = none) :
    runIdempotent g key scope ph exec =
      ((exec g.ledger).1,
       ⟨g.records ++
          [⟨key, scope, ph, (exec g.ledger).1.status,
            (exec g.ledger).1.body⟩],
        (exec g.ledger).2⟩) := by
  simp only [runIdempotent, hfresh]

theorem lookupRecord_append_fresh (records : List IdempotencyRecord)
    (key scope ph : String) (st : Nat) (body : String)
    (hfresh : lookupRecord records key scope = none) :
    lookupRecord (records ++ [⟨key, scope, ph, st, body⟩]) key scope =
      some ⟨key, scope, ph, st, body⟩ := by
  simp only [lookupRecord] at hfresh ⊢
  simp [List.find?_append, hfresh]

/-- C5: a request whose (idempotencyKey, scope) pair has been seen replays
the cached response byte-identically without re-executing when the payload
hash matches, and returns a 409 idempotency_key_payload_mismatch changing
nothing when it differs; a duplicate of a fresh request therefore returns
the first response verbatim and leaves the state — hence the transaction
count — untouched, while the underlying authorization creates exactly one
Transaction when it does run. -/
theorem idempotent_replay :
    (∀ (g : GuardedState) (key scope ph : String)
        (exec : LedgerState → HttpResponse × LedgerState)
        (r : IdempotencyRecord),
      lookupRecord g.records key scope = some r → r.payloadHash = ph →
      runIdempotent g key scope ph exec =
        (⟨r.responseStatus, r.responseBody⟩, g)) ∧
    (∀ (g : GuardedState) (key scope ph : String)
        (exec : LedgerState → HttpResponse × LedgerState)
        (r : IdempotencyRecord),
      lookupRecord g.records key scope = some r → r.payloadHash ≠ ph →
      runIdempotent g key scope ph exec =
        (⟨409, "idempotency_key_payload_mismatch"⟩, g)) ∧
    (∀ (g : GuardedState) (key scope ph : String)
        (exec : LedgerState → HttpResponse × LedgerState),
      lookupRecord g.records key scope = none →
      (runIdempotent (runIdempotent g key scope ph exec).2 key scope ph
          exec).1 = (runIdempotent g key scope ph exec).1 ∧
      (runIdempotent (runIdempotent g key scope ph exec).2 key scope ph
          exec).2 = (runIdempotent g key scope ph exec).2) ∧
    (∀ (g : GuardedState) (key scope ph ph2 : String)
        (exec : LedgerState → HttpResponse × LedgerState),
      lookupRecord g.records key scope = none → ph ≠ ph2 →
      (runIdempotent (runIdempotent g key scope ph exec).2 key scope ph2
          exec).1 = ⟨409, "idempotency_key_payload_mismatch"⟩ ∧
      (runIdempotent (runIdempotent g key scope ph exec).2 key scope ph2
          exec).2 = (runIdempotent g key scope ph exec).2) ∧
    (∀ (s : LedgerState) (card : Card) (req : AuthRequest) (now : UtcDate)
        (newTxId : Nat) (authCode : String) (ch m : Nat),
      (processAuthorization s card req now newTxId authCode
          ch m).2.transactions.length = s.transactions.length + 1) := by
  refine ⟨?_, ?_, ?_, ?_, ?_⟩
  · intro g key scope ph exec r hseen hmatch
    simp [runIdempotent, hseen, hmatch]
  · intro g key scope ph exec r hseen hmiss
    simp [runIdempotent, hseen, hmiss]
  · intro g key scope ph exec hfresh
    have hlook := lookupRecord_append_fresh g.records key scope ph
      (exec g.ledger).1.status (exec g.ledger).1.body hfresh
    rw [runIdempotent_fresh g key scope ph exec hfresh]
    constructor
    · simp [runIdempotent, hlook]
    · simp [runIdempotent, hlook]
  · intro g key scope ph ph2 exec hfresh hne
    have hlook := lookupRecord_append_fresh g.records key scope ph
      (exec g.ledger).1.status (exec g.ledger).1.body hfresh
    rw [runIdempotent_fresh g key scope ph exec hfresh]
    constructor
    · simp [runIdempotent, hlook, hne]
    · simp [runIdempotent, hlook, hne]
  · intro s card req now newTxId authCode ch m
    by_cases hA : card.status = .ACTIVE
    · by_cases hE : (evaluate s.transactions card req.amountMinor
        req.merchantCategoryCode now).allowed = true
      · simp [processAuthorization, hA, hE]
      · simp [processAuthorization, hA, hE]
    · simp [processAuthorization, hA]

/-- A concrete handler: authorize the sample request against plainCard. -/
def authorizeExec : LedgerState → HttpResponse × LedgerState := fun st =>
  let r := processAuthorization st plainCard sampleAuthReq ⟨5, 3⟩ 1 "A1" 10 20
  (⟨201, if r.1.approved then "approved" else "declined"⟩, r.2)

/-- C5 witness: issuing the same authorize request twice with the same key
returns the identical response, leaves the state of the first call
untouched, and the single execution created exactly one Transaction. -/
theorem idempotent_replay_witness :
    ((runIdempotent (runIdempotent ⟨[], ⟨[], []⟩⟩ "k1" "POST:/authorize:p1"
        "h1" authorizeExec).2 "k1" "POST:/authorize:p1" "h1"
        authorizeExec).1 =
      (runIdempotent ⟨[], ⟨[], []⟩⟩ "k1" "POST:/authorize:p1" "h1"
        authorizeExec).1) ∧
    ((runIdempotent (runIdempotent ⟨[], ⟨[], []⟩⟩ "k1" "POST:/authorize:p1"
        "h1" authorizeExec).2 "k1" "POST:/authorize:p1" "h2"
        authorizeExec).1 =
      ⟨409, "idempotency_key_payload_mismatch"⟩) ∧
    (processAuthorization ⟨[], []⟩ plainCard sampleAuthReq ⟨5, 3⟩ 1 "A1"
        10 20).2.transactions.length = 0 + 1 :=
  ⟨(idempotent_replay.2.2.1 ⟨[], ⟨[], []⟩⟩ "k1" "POST:/authorize:p1" "h1"
      authorizeExec rfl).1,
   (idempotent_replay.2.2.2.1 ⟨[], ⟨[], []⟩⟩ "k1" "POST:/authorize:p1" "h1"
      "h2" authorizeExec rfl (by decide)).1,
   idempotent_replay.2.2.2.2 ⟨[], []⟩ plainCard sampleAuthReq ⟨5, 3⟩ 1 "A1"
      10 20⟩

/-- Outcome of the webhook signature check (spec §6, inbound webhook
contract). -/
inductive WebhookOutcome
  | unauthorized
  | badRequest
  | processed
deriving DecidableEq, Repr

/-- Lowercase hexadecimal digit test for signature characters. -/
def isHexChar (c : Char) : Bool :=
  (decide ('0' ≤ c) && decide (c ≤ '9')) ||
    (decide ('a' ≤ c) && decide (c ≤ 'f'))

/-- Modelled from the spec: a well-formed signature header has the shape
sha256=<64 lowercase hex characters> (spec §6). -/
def wellFormedSignature (h : String) : Bool :=
  (h.toList.take 7 == "sha256=".toList) &&
    (h.toList.drop 7).length == 64 && (h.toList.drop 7).all isHexChar

/-- Modelled from the spec: the webhook signature gate (spec §6 and the
Webhook HMAC validation notes of the source specification). The HMAC-SHA256
computation itself is abstracted: `mac` stands for the hex digest computed
with the shared secret over the raw, unmodified request bytes, and the gate
logic — missing header unauthorized, malformed header bad request, mismatch
unauthorized, match processed — is what is modelled. The implementation is
not in src/, only the specification document. -/
def verifyWebhookSignature (mac : String) (header : Option String) :
    WebhookOutcome :=
  match header with
  | none => .unauthorized
  | some h =>
    if wellFormedSignature h then
      if h.toList.drop 7 = mac.toList then .processed else .unauthorized
    else .badRequest

/-- C8: the signature check yields exactly one of three outcomes — no header
is unauthorized, a header not of the form sha256=<hex digest> is bad
request, a well-formed but non-matching signature is unauthorized — and only
a matching signature lets the body be processed. -/
theorem webhook_signature_trichotomy (mac : String)
    (header : Option String) :
    (header = none → verifyWebhookSignature mac header = .unauthorized) ∧
    (∀ h, header = some h → wellFormedSignature h = false →
      verifyWebhookSignature mac header = .badRequest) ∧
    (∀ h, header = some h → wellFormedSignature h = true →
      h.toList.drop 7 ≠ mac.toList →
      verifyWebhookSignature mac header = .unauthorized) ∧
    (∀ h, header = some h → wellFormedSignature h = true →
      h.toList.drop 7 = mac.toList →
      verifyWebhookSignature mac header = .processed) ∧
    (verifyWebhookSignature mac header = .processed ↔
      ∃ h, header = some h ∧ wellFormedSignature h = true ∧
        h.toList.drop 7 = mac.toList) := by
  refine ⟨?_, ?_, ?_, ?_, ?_⟩
  · intro h
    subst h
    rfl
  · intro h hh hwf
    subst hh
    simp [verifyWebhookSignature, hwf]
  · intro h hh hwf hne
    subst hh
    simp only [String.toList] at hne
    simp [verifyWebhookSignature, hwf, hne, String.toList]
  · intro h hh hwf heq
    subst hh
    simp only [String.toList] at heq
    simp [verifyWebhookSignature, hwf, heq, String.toList]
  · cases header with
    | none =>
      simp [verifyWebhookSignature]
    | some h =>
      by_cases hwf : wellFormedSignature h = true
      · by_cases heq : h.toList.drop 7 = mac.toList
        · simp only [String.toList] at heq
          simp [verifyWebhookSignature, hwf, heq, String.toList]
        · simp only [String.toList] at heq
          simp [verifyWebhookSignature, hwf, heq, String.toList]
      · simp [verifyWebhookSignature, hwf]

/-- A concrete 64-character hex digest standing for the computed HMAC. -/
def sampleMac : String :=
  "0123456789abcdef0123456789abcdef0123456789abcdef0123456789abcdef"

/-- C8 witness: at the concrete digest, a missing header is unauthorized,
a malformed header is bad request, a well-formed wrong signature is
unauthorized, and the exact signature is processed. -/
theorem webhook_signature_trichotomy_witness :
    verifyWebhookSignature sampleMac none = .unauthorized ∧
    verifyWebhookSignature sampleMac (some "bogus") = .badRequest ∧
    verifyWebhookSignature sampleMac
      (some ("sha256=" ++ sampleMac)) = .processed :=
  ⟨(webhook_signature_trichotomy sampleMac none).1 rfl,
   (webhook_signature_trichotomy sampleMac (some "bogus")).2.1 "bogus" rfl
     (by decide),
   (webhook_signature_trichotomy sampleMac
       (some ("sha256=" ++ sampleMac))).2.2.2.1 ("sha256=" ++ sampleMac)
     rfl (by decide) (by decide)⟩

/-- Maximum requests allowed per window (src/homework-1 rateLimiter,
MAX_REQUESTS). -/
def MAX_REQUESTS : Nat := 100

/-- Window length in milliseconds (src/homework-1 rateLimiter, WINDOW_MS). -/
def WINDOW_MS : Nat := 60 * 1000

/-- Per-IP entry of the requestCounts map (src/homework-1 rateLimiter). -/
structure RLData where
  count : Nat
  resetTime : Nat
deriving DecidableEq, Repr

/-- The requestCounts Map of the middleware, modelled as a function from IP
to the optional entry. -/
def RequestCounts : Type := String → Option RLData

/-- Map.set on requestCounts. -/
def updateCounts (m : RequestCounts) (ip : String) (d : RLData) :
    RequestCounts :=
  fun ip2 => if ip2 = ip then some d else m ip2

/-- What one pass of the middleware does to the response: whether it stopped
the request with 429, and the rate-limit headers it set. -/
structure RLOutcome where
  limited : Bool
  limitHeader : Nat
  remainingHeader : Nat
  resetHeader : Nat
  retryAfter : Option Nat
deriving DecidableEq, Repr

/-- The rateLimiter middleware of src/homework-1/src/index.js (lines
147-197): a first request from an IP creates a window entry with count 1;
a request after the stored resetTime resets the counter to 1 and starts a
new window; otherwise the counter increments. The X-RateLimit headers are
set on every response; when the count exceeds MAX_REQUESTS the request is
answered 429 with Retry-After instead of being forwarded. -/
def rateLimiter (m : RequestCounts) (ip : String) (now : Nat) :
    RLOutcome × RequestCounts :=
  let d : RLData :=
    match m ip with
    | none => ⟨1, now + WINDOW_MS⟩
    | some d0 =>
      if d0.resetTime < now then ⟨1, now + WINDOW_MS⟩
      else ⟨d0.count + 1, d0.resetTime⟩
  let m2 := updateCounts m ip d
  if MAX_REQUESTS < d.count then
    (⟨true, MAX_REQUESTS, MAX_REQUESTS - d.count, d.resetTime,
      some ((d.resetTime - now + 999) / 1000)⟩, m2)
  else
    (⟨false, MAX_REQUESTS, MAX_REQUESTS - d.count, d.resetTime, none⟩, m2)

/-- Sequential processing of a list of request timestamps from one IP. -/
def runRL (m : RequestCounts) (ip : String) (times : List Nat) :
    List RLOutcome × RequestCounts :=
  match times with
  | [] => ([], m)
  | t :: ts =>
    ((rateLimiter m ip t).1 :: (runRL (rateLimiter m ip t).2 ip ts).1,
     (runRL (rateLimiter m ip t).2 ip ts).2)

/-- Number of requests forwarded (not 429ed) whose response advertised the
window ending at r. -/
def admittedInWindow (outs : List RLOutcome) (r : Nat) : Nat :=
  (outs.filter (fun o => !o.limited && o.resetHeader == r)).length

/-- How many more admissions the window ending at r can still grant, given
the current entry for ip. -/
def windowBudget (m : RequestCounts) (ip : String) (r : Nat) : Nat :=
  match m ip with
  | none => MAX_REQUESTS
  | some d =>
    if d.resetTime = r then MAX_REQUESTS - d.count
    else if d.resetTime < r then MAX_REQUESTS else 0

theorem rateLimiter_budget_step (m : RequestCounts) (ip : String)
    (now r : Nat) :
    (if (rateLimiter m ip now).1.limited = false ∧
        (rateLimiter m ip now).1.resetHeader = r then 1 else 0) +
      windowBudget (rateLimiter m ip now).2 ip r ≤ windowBudget m ip r := by
  have h1 : ¬ (MAX_REQUESTS < 1) := by decide
  rcases hm : m ip with _ | d0
  · simp [rateLimiter, hm, h1, windowBudget, updateCounts, MAX_REQUESTS,
      WINDOW_MS]
    try split_ifs <;> omega
  · by_cases hexp : d0.resetTime < now
    · simp [rateLimiter, hm, hexp, h1, windowBudget, updateCounts,
        MAX_REQUESTS, WINDOW_MS]
      try split_ifs <;> omega
    · by_cases hfull : (100 : Nat) < d0.count + 1
      · simp [rateLimiter, hm, hexp, hfull, windowBudget, updateCounts,
          MAX_REQUESTS, WINDOW_MS]
        try split_ifs <;> omega
      · simp [rateLimiter, hm, hexp, hfull, windowBudget, updateCounts,
          MAX_REQUESTS, WINDOW_MS]
        try split_ifs <;> omega

theorem runRL_budget (times : List Nat) (m : RequestCounts) (ip : String)
    (r : Nat) :
    admittedInWindow (runRL m ip times).1 r ≤ windowBudget m ip r := by
  induction times generalizing m with
  | nil => simp [runRL, admittedInWindow]
  | cons t ts ih =>
    have hstep := rateLimiter_budget_step m ip t r
    have hrest := ih (rateLimiter m ip t).2
    by_cases hadm : (rateLimiter m ip t).1.limited = false ∧
        (rateLimiter m ip t).1.resetHeader = r
    · have hb : (!(rateLimiter m ip t).1.limited &&
          (rateLimiter m ip t).1.resetHeader == r) = true := by
        simp [hadm.1, hadm.2]
      rw [if_pos hadm] at hstep
      simp only [runRL, admittedInWindow, List.filter_cons, hb, if_true,
        List.length_cons] at hrest ⊢
      omega
    · have hb : (!(rateLimiter m ip t).1.limited &&
          (rateLimiter m ip t).1.resetHeader == r) = false := by
        rcases not_and_or.mp hadm with h | h
        · have : (rateLimiter m ip t).1.limited = true := by
            revert h
            cases (rateLimiter m ip t).1.limited <;> simp
          simp [this]
        · simp [h]
      rw [if_neg hadm] at hstep
      simp only [runRL, admittedInWindow, List.filter_cons, hb,
        Bool.false_eq_true, if_false] at hrest ⊢
      omega

/-- C10: per client IP the middleware admits at most MAX_REQUESTS = 100
requests per window — a request within the window increments the counter and
is answered 429 with Retry-After and the X-RateLimit headers exactly when
the incremented count exceeds 100; the first request after resetTime resets
the counter to 1 and is admitted; entries of other IPs are untouched; and
over any run at most 100 requests of a window are forwarded. -/
theorem rate_limiter_window_bound :
    (∀ (m : RequestCounts) (ip : String) (now : Nat) (d0 : RLData),
      m ip = some d0 → now ≤ d0.resetTime →
      (rateLimiter m ip now).2 ip = some ⟨d0.count + 1, d0.resetTime⟩ ∧
      ((rateLimiter m ip now).1.limited = true ↔
        MAX_REQUESTS < d0.count + 1) ∧
      (MAX_REQUESTS < d0.count + 1 →
        (rateLimiter m ip now).1.retryAfter =
          some ((d0.resetTime - now + 999) / 1000)) ∧
      (rateLimiter m ip now).1.limitHeader = MAX_REQUESTS ∧
      (rateLimiter m ip now).1.remainingHeader =
        MAX_REQUESTS - (d0.count + 1) ∧
      (rateLimiter m ip now).1.resetHeader = d0.resetTime) ∧
    (∀ (m : RequestCounts) (ip : String) (now : Nat) (d0 : RLData),
      m ip = some d0 → d0.resetTime < now →
      (rateLimiter m ip now).2 ip = some ⟨1, now + WINDOW_MS⟩ ∧
      (rateLimiter m ip now).1.limited = false) ∧
    (∀ (m : RequestCounts) (ip : String) (now : Nat),
      m ip = none →
      (rateLimiter m ip now).2 ip = some ⟨1, now + WINDOW_MS⟩ ∧
      (rateLimiter m ip now).1.limited = false) ∧
    (∀ (m : RequestCounts) (ip ip2 : String) (now : Nat),
      ip2 ≠ ip → (rateLimiter m ip now).2 ip2 = m ip2) ∧
    (∀ (m : RequestCounts) (ip : String) (times : List Nat) (r : Nat),
      admittedInWindow (runRL m ip times).1 r ≤ MAX_REQUESTS) := by
  refine ⟨?_, ?_, ?_, ?_, ?_⟩
  · intro m ip now d0 hm hin
    have hexp : ¬ d0.resetTime < now := Nat.not_lt.mpr hin
    by_cases hfull : MAX_REQUESTS < d0.count + 1 <;>
      simp [rateLimiter, hm, hexp, hfull, updateCounts]
  · intro m ip now d0 hm hexp
    have h1 : ¬ (MAX_REQUESTS < 1) := by simp [MAX_REQUESTS]
    simp [rateLimiter, hm, hexp, h1, updateCounts]
  · intro m ip now hm
    have h1 : ¬ (MAX_REQUESTS < 1) := by simp [MAX_REQUESTS]
    simp [rateLimiter, hm, h1, updateCounts]
  · intro m ip ip2 now hne
    rcases hm : m ip with _ | d0 <;>
      simp only [rateLimiter, hm] <;>
      split <;> try split
    all_goals simp [updateCounts, hne]
  · intro m ip times r
    have h := runRL_budget times m ip r
    have hb : windowBudget m ip r ≤ MAX_REQUESTS := by
      unfold windowBudget
      rcases m ip with _ | d
      · exact Nat.le_refl _
      · by_cases h1 : d.resetTime = r <;> by_cases h2 : d.resetTime < r <;>
          simp [h1, h2]
    omega

/-- C10 witness: the very first request from an IP creates a window entry
with count 1 and is forwarded, and the first request after the window
resets the counter to 1 and is admitted. -/
theorem rate_limiter_window_bound_witness :
    ((rateLimiter (fun _ => none) "10.0.0.1" 5).2 "10.0.0.1" =
      some ⟨1, 5 + WINDOW_MS⟩ ∧
     (rateLimiter (fun _ => none) "10.0.0.1" 5).1.limited = false) ∧
    ((rateLimiter (fun ip2 => if ip2 = "10.0.0.1" then
        some ⟨100, 70000⟩ else none) "10.0.0.1" 70001).2 "10.0.0.1" =
      some ⟨1, 70001 + WINDOW_MS⟩ ∧
     (rateLimiter (fun ip2 => if ip2 = "10.0.0.1" then
        some ⟨100, 70000⟩ else none) "10.0.0.1" 70001).1.limited = false) :=
  ⟨rate_limiter_window_bound.2.2.1 (fun _ => none) "10.0.0.1" 5 rfl,
   rate_limiter_window_bound.2.1
     (fun ip2 => if ip2 = "10.0.0.1" then some ⟨100, 70000⟩ else none)
     "10.0.0.1" 70001 ⟨100, 70000⟩ (by simp) (by decide)⟩
